import Mathlib

/-!
Shallow embedding of the tech-interview-generator core
(`src/interview_generator/signatures.py` and `src/interview_generator/modules.py`).

Each DSPy signature becomes a record of its output fields; the external
completion service (the LLM backend) is a structure of pure functions, one per
signature, each returning `Except GenError`.  Every generator `forward` returns
its result paired with the list of completion-service calls it issued, so that
claims about which generators are (not) invoked, and in which order, are
statable.  Exception raising and propagation in Python is modelled with
`Except`.
-/

/-- Output record of the `GenerateQuestion` signature. -/
structure QuestionOut where
  question : String
  explanation : String
deriving Repr, DecidableEq

/-- Output record of the `GenerateFollowUp` signature. -/
structure FollowUpOut where
  followup_questions : String
deriving Repr, DecidableEq

/-- Output record of the `AssessDifficulty` signature. -/
structure DifficultyOut where
  assessed_difficulty : String
  reasoning : String
deriving Repr, DecidableEq

/-- Output record of the `GenerateCodingQuestion` signature. -/
structure CodingOut where
  question_title : String
  question_description : String
  input_format : String
  output_format : String
  constraints : String
  «example» : String
deriving Repr, DecidableEq

/-- Output record of the `GenerateMLQuestion` signature. -/
structure MLOut where
  question : String
  key_concepts : String
  expected_depth : String
deriving Repr, DecidableEq

/-- Errors of the core, named after the error taxonomy of the spec:
`validationError` models the Python `TypeError` for a required argument missing
at a `forward` call; `unsupportedType` models the `ValueError` raised by the
dispatch in `CompleteInterviewGenerator.forward`; `generationError` models a
failure coming back from the external completion service. -/
inductive GenError where
  | validationError (msg : String) : GenError
  | unsupportedType (msg : String) : GenError
  | generationError (msg : String) : GenError
deriving Repr, DecidableEq

/-- One outbound call to the external completion service, recording which
signature was invoked and with which input-field values. -/
inductive Call where
  | question (topic question_type difficulty : String) : Call
  | coding (topic difficulty : String) : Call
  | ml (topic difficulty question_style : String) : Call
  | followUp (original_question topic : String) (num_followups : Int) : Call
  | assess (question topic : String) : Call
deriving Repr, DecidableEq

/-- The external completion service, one pure function per declared signature.
It is an opaque collaborator: theorems quantify over it. -/
structure CompletionService where
  genQuestion : String → String → String → Except GenError QuestionOut
  genCoding : String → String → Except GenError CodingOut
  genML : String → String → String → Except GenError MLOut
  genFollowUp : String → String → Int → Except GenError FollowUpOut
  assessDifficulty : String → String → Except GenError DifficultyOut

/-- Embeds `QuestionGenerator.forward` (modules.py lines 32-39): pass the
three inputs to the `GenerateQuestion` completion and return its result. -/
def QuestionGenerator.forward (svc : CompletionService)
    (topic question_type difficulty : String) :
    Except GenError QuestionOut × List Call :=
  (svc.genQuestion topic question_type difficulty,
   [Call.question topic question_type difficulty])

/-- Embeds `CodingQuestionGenerator.forward` (modules.py lines 49-52). -/
def CodingQuestionGenerator.forward (svc : CompletionService)
    (topic difficulty : String) :
    Except GenError CodingOut × List Call :=
  (svc.genCoding topic difficulty, [Call.coding topic difficulty])

/-- Embeds `MLQuestionGenerator.forward` (modules.py lines 62-69);
`question_style` defaults to "mixed" as in the Python signature. -/
def MLQuestionGenerator.forward (svc : CompletionService)
    (topic difficulty : String) (question_style : String := "mixed") :
    Except GenError MLOut × List Call :=
  (svc.genML topic difficulty question_style,
   [Call.ml topic difficulty question_style])

/-- Embeds `FollowUpGenerator.forward` (modules.py lines 79-86);
`num_followups` defaults to 3 as in the Python signature. -/
def FollowUpGenerator.forward (svc : CompletionService)
    (original_question topic : String) (num_followups : Int := 3) :
    Except GenError FollowUpOut × List Call :=
  (svc.genFollowUp original_question topic num_followups,
   [Call.followUp original_question topic num_followups])

/-- The difficulty assessor used inside `InterviewPipeline`
(`dspy.ChainOfThought(AssessDifficulty)`, modules.py line 101). -/
def DifficultyAssessor.call (svc : CompletionService)
    (question topic : String) :
    Except GenError DifficultyOut × List Call :=
  (svc.assessDifficulty question topic, [Call.assess question topic])

/-- The Python call protocol for `QuestionGenerator.forward`: every parameter
is required, so a call site that omits one raises a `TypeError` (the
ValidationError of the spec) before the body runs, hence before any completion
call. -/
def QuestionGenerator.forwardOpt (svc : CompletionService)
    (topic question_type difficulty : Option String) :
    Except GenError QuestionOut × List Call :=
  match topic, question_type, difficulty with
  | some t, some q, some d => QuestionGenerator.forward svc t q d
  | _, _, _ => (.error (.validationError "missing a required argument"), [])

/-- The Python call protocol for `FollowUpGenerator.forward`:
`original_question` and `topic` are required (omitting one raises `TypeError`
before the body runs); `num_followups` is optional with default 3. -/
def FollowUpGenerator.forwardOpt (svc : CompletionService)
    (original_question topic : Option String) (num_followups : Option Int) :
    Except GenError FollowUpOut × List Call :=
  match original_question, topic with
  | some o, some t => FollowUpGenerator.forward svc o t (num_followups.getD 3)
  | _, _ => (.error (.validationError "missing a required argument"), [])

/-- The dict returned by `InterviewPipeline.forward` (modules.py lines
130-137). -/
structure PipelineResult where
  question : String
  explanation : String
  requested_difficulty : String
  assessed_difficulty : String
  difficulty_reasoning : String
  followup_questions : String
deriving Repr, DecidableEq

/-- Embeds `InterviewPipeline.forward` (modules.py lines 103-137): question
generation, then follow-up generation, then difficulty assessment, the latter
two fed with the stage-1 `question`; a stage failure propagates immediately. -/
def InterviewPipeline.forward (svc : CompletionService)
    (topic question_type difficulty : String) (num_followups : Int := 3) :
    Except GenError PipelineResult × List Call :=
  let qstep := QuestionGenerator.forward svc topic question_type difficulty
  match qstep.1 with
  | .error e => (.error e, qstep.2)
  | .ok q =>
    let fstep := FollowUpGenerator.forward svc q.question topic num_followups
    match fstep.1 with
    | .error e => (.error e, qstep.2 ++ fstep.2)
    | .ok f =>
      let astep := DifficultyAssessor.call svc q.question topic
      match astep.1 with
      | .error e => (.error e, qstep.2 ++ fstep.2 ++ astep.2)
      | .ok a =>
        (.ok { question := q.question
             , explanation := q.explanation
             , requested_difficulty := difficulty
             , assessed_difficulty := a.assessed_difficulty
             , difficulty_reasoning := a.reasoning
             , followup_questions := f.followup_questions },
         qstep.2 ++ fstep.2 ++ astep.2)

/-- The `details` field of `CompleteInterviewGenerator.forward`: the full
structured result of whichever specialized generator ran. -/
inductive Details where
  | coding (r : CodingOut) : Details
  | ml (r : MLOut) : Details
deriving Repr, DecidableEq

/-- The dict returned by `CompleteInterviewGenerator.forward` (modules.py
lines 179-184). -/
structure CompleteResult where
  question : String
  details : Details
  difficulty : String
  followup_questions : String
deriving Repr, DecidableEq

/-- The `main_question` template of the coding branch (modules.py line 157):
the f-string concatenating the six coding-generator output fields with fixed
literal labels and newlines. -/
def codingTemplate (c : CodingOut) : String :=
  c.question_title ++ "\n\n" ++ c.question_description ++ "\n\nInput: " ++
    c.input_format ++ "\nOutput: " ++ c.output_format ++ "\n\nConstraints: " ++
    c.constraints ++ "\n\nExample:\n" ++ c.«example»

/-- The dispatch on `question_type` in `CompleteInterviewGenerator.forward`
(modules.py lines 154-170): the if/elif chain selecting the specialized
generator, producing `main_question` and the specialized result, or raising
`ValueError("Unknown question type: ...")` on any other value. -/
def CompleteInterviewGenerator.dispatch (svc : CompletionService)
    (topic question_type difficulty : String) :
    Except GenError (String × Details) × List Call :=
  if question_type == "coding" then
    let step := CodingQuestionGenerator.forward svc topic difficulty
    match step.1 with
    | .error e => (.error e, step.2)
    | .ok c => (.ok (codingTemplate c, Details.coding c), step.2)
  else if question_type == "ml_theory" then
    let step := MLQuestionGenerator.forward svc topic difficulty "theoretical"
    match step.1 with
    | .error e => (.error e, step.2)
    | .ok m => (.ok (m.question, Details.ml m), step.2)
  else if question_type == "ml_practical" then
    let step := MLQuestionGenerator.forward svc topic difficulty "practical"
    match step.1 with
    | .error e => (.error e, step.2)
    | .ok m => (.ok (m.question, Details.ml m), step.2)
  else
    (.error (.unsupportedType ("Unknown question type: " ++ question_type)), [])

/-- Embeds `CompleteInterviewGenerator.forward` (modules.py lines 152-184):
dispatch
on `question_type`, then generate follow-ups on `main_question`, then return
the result dict. -/
def CompleteInterviewGenerator.forward (svc : CompletionService)
    (topic question_type difficulty : String) (num_followups : Int := 3) :
    Except GenError CompleteResult × List Call :=
  let dstep := CompleteInterviewGenerator.dispatch svc topic question_type difficulty
  match dstep.1 with
  | .error e => (.error e, dstep.2)
  | .ok md =>
    let fstep := FollowUpGenerator.forward svc md.1 topic num_followups
    match fstep.1 with
    | .error e => (.error e, dstep.2 ++ fstep.2)
    | .ok f =>
      (.ok { question := md.1
           , details := md.2
           , difficulty := difficulty
           , followup_questions := f.followup_questions },
       dstep.2 ++ fstep.2)

/-- A concrete completion service where every signature succeeds with fixed
outputs; used to evaluate the theorems on concrete inputs. -/
def constSvc : CompletionService where
  genQuestion := fun _ _ _ => .ok { question := "Q", explanation := "E" }
  genCoding := fun _ _ =>
    .ok { question_title := "T", question_description := "D",
          input_format := "I", output_format := "O",
          constraints := "C", «example» := "X" }
  genML := fun _ _ s =>
    .ok { question := "MQ-" ++ s, key_concepts := "K", expected_depth := "DP" }
  genFollowUp := fun _ _ _ => .ok { followup_questions := "F" }
  assessDifficulty := fun _ _ =>
    .ok { assessed_difficulty := "hard", reasoning := "R" }

/-- A completion service whose question generation always fails. -/
def failQuestionSvc : CompletionService :=
  { constSvc with genQuestion := fun _ _ _ => .error (.generationError "boom") }

/-- Modelled from the spec: the reordered `InterviewPipeline` that runs the
difficulty assessor (stage 3) before the follow-up generator (stage 2), as the
purely-optimizing reordering described by the spec; used to compare against
`InterviewPipeline.forward`. -/
def InterviewPipeline.forwardSwapped (svc : CompletionService)
    (topic question_type difficulty : String) (num_followups : Int := 3) :
    Except GenError PipelineResult × List Call :=
  let qstep := QuestionGenerator.forward svc topic question_type difficulty
  match qstep.1 with
  | .error e => (.error e, qstep.2)
  | .ok q =>
    let astep := DifficultyAssessor.call svc q.question topic
    match astep.1 with
    | .error e => (.error e, qstep.2 ++ astep.2)
    | .ok a =>
      let fstep := FollowUpGenerator.forward svc q.question topic num_followups
      match fstep.1 with
      | .error e => (.error e, qstep.2 ++ astep.2 ++ fstep.2)
      | .ok f =>
        (.ok { question := q.question
             , explanation := q.explanation
             , requested_difficulty := difficulty
             , assessed_difficulty := a.assessed_difficulty
             , difficulty_reasoning := a.reasoning
             , followup_questions := f.followup_questions },
         qstep.2 ++ astep.2 ++ fstep.2)

/-- C1: for every `question_type` outside {"coding", "ml_theory",
"ml_practical"}, `CompleteInterviewGenerator.forward` fails with the
unsupported-type error naming the invalid type, and no single-stage generator
is invoked before the failure (the call log is empty). -/
theorem claim1_unsupported_type_fails_without_calls (svc : CompletionService)
    (topic question_type difficulty : String) (n : Int)
    (h1 : question_type ≠ "coding") (h2 : question_type ≠ "ml_theory")
    (h3 : question_type ≠ "ml_practical") :
    CompleteInterviewGenerator.forward svc topic question_type difficulty n
      = (.error (.unsupportedType ("Unknown question type: " ++ question_type)),
         []) := by
  simp [CompleteInterviewGenerator.forward, CompleteInterviewGenerator.dispatch,
    h1, h2, h3]

/-- C1 witness: at the concrete invalid type "behavioral". -/
theorem claim1_witness :
    CompleteInterviewGenerator.forward constSvc "trees" "behavioral" "easy" 3
      = (.error (.unsupportedType "Unknown question type: behavioral"), []) := by
  have h := claim1_unsupported_type_fails_without_calls constSvc "trees"
    "behavioral" "easy" 3 (by decide) (by decide) (by decide)
  simpa using h

/-- C2 counterexample: `topic` is supplied but empty, yet
`QuestionGenerator.forward` raises no ValidationError: it succeeds and the
external completion service is called with the empty value. -/
theorem claim2_counterexample :
    (QuestionGenerator.forwardOpt constSvc (some "") (some "coding")
        (some "medium")).1
      = .ok { question := "Q", explanation := "E" }
    ∧ (QuestionGenerator.forwardOpt constSvc (some "") (some "coding")
        (some "medium")).2
      = [Call.question "" "coding" "medium"] :=
  ⟨rfl, rfl⟩

/-- C2 (amended): when a required input of a single-stage generator is
missing, the call fails with a ValidationError before any completion-service
call (the call log is empty); empty supplied values are not validated. -/
theorem claim2_missing_input_validation (svc : CompletionService)
    (topic question_type difficulty : Option String)
    (oq t2 : Option String) (n : Option Int)
    (hq : topic = none ∨ question_type = none ∨ difficulty = none)
    (hf : oq = none ∨ t2 = none) :
    QuestionGenerator.forwardOpt svc topic question_type difficulty
        = (.error (.validationError "missing a required argument"), [])
    ∧ FollowUpGenerator.forwardOpt svc oq t2 n
        = (.error (.validationError "missing a required argument"), []) := by
  constructor
  · rcases hq with h | h | h <;> subst h <;>
      simp [QuestionGenerator.forwardOpt]
  · rcases hf with h | h <;> subst h <;>
      simp [FollowUpGenerator.forwardOpt]

/-- C2 witness: missing `topic` (question generator) and missing
`original_question` (follow-up generator) at concrete inputs. -/
theorem claim2_witness :
    QuestionGenerator.forwardOpt constSvc none (some "coding") (some "medium")
        = (.error (.validationError "missing a required argument"), [])
    ∧ FollowUpGenerator.forwardOpt constSvc none (some "graphs") (some 3)
        = (.error (.validationError "missing a required argument"), []) :=
  claim2_missing_input_validation constSvc none (some "coding") (some "medium")
    none (some "graphs") (some 3) (Or.inl rfl) (Or.inl rfl)

/-- C3: on the "coding" branch, `CompleteInterviewGenerator.forward` builds
`main_question` as the concatenation of the six coding-generator output fields
title, description, input format, output format, constraints, example, in that
fixed order with the literal template labels and newlines, and returns it as
the `question` field of the result. -/
theorem claim3_coding_template (svc : CompletionService)
    (topic difficulty : String) (n : Int) (c : CodingOut) (f : FollowUpOut)
    (hc : svc.genCoding topic difficulty = .ok c)
    (hf : svc.genFollowUp
      (c.question_title ++ "\n\n" ++ c.question_description ++ "\n\nInput: " ++
        c.input_format ++ "\nOutput: " ++ c.output_format ++
        "\n\nConstraints: " ++ c.constraints ++ "\n\nExample:\n" ++ c.«example»)
      topic n = .ok f) :
    (CompleteInterviewGenerator.forward svc topic "coding" difficulty n).1
      = .ok { question := c.question_title ++ "\n\n" ++ c.question_description
                ++ "\n\nInput: " ++ c.input_format ++ "\nOutput: "
                ++ c.output_format ++ "\n\nConstraints: " ++ c.constraints
                ++ "\n\nExample:\n" ++ c.«example»
            , details := Details.coding c
            , difficulty := difficulty
            , followup_questions := f.followup_questions } := by
  simp [CompleteInterviewGenerator.forward, CompleteInterviewGenerator.dispatch,
    CodingQuestionGenerator.forward, FollowUpGenerator.forward, codingTemplate,
    hc, hf]

/-- C3 witness: concrete coding run through `constSvc`. -/
theorem claim3_witness :
    (CompleteInterviewGenerator.forward constSvc "graphs" "coding" "hard" 3).1
      = .ok { question :=
                "T" ++ "\n\n" ++ "D" ++ "\n\nInput: " ++ "I" ++ "\nOutput: "
                  ++ "O" ++ "\n\nConstraints: " ++ "C" ++ "\n\nExample:\n" ++ "X"
            , details := Details.coding
                { question_title := "T", question_description := "D",
                  input_format := "I", output_format := "O",
                  constraints := "C", «example» := "X" }
            , difficulty := "hard"
            , followup_questions := "F" } :=
  claim3_coding_template constSvc "graphs" "hard" 3
    { question_title := "T", question_description := "D", input_format := "I",
      output_format := "O", constraints := "C", «example» := "X" }
    { followup_questions := "F" } rfl rfl

/-- C4: if the question-generation stage fails, `InterviewPipeline.forward`
propagates that error unchanged, produces no PipelineResult, and its call log
holds only the stage-1 call: the follow-up generator and the difficulty
assessor are never invoked. -/
theorem claim4_pipeline_fail_fast (svc : CompletionService)
    (topic question_type difficulty : String) (n : Int) (e : GenError)
    (h : svc.genQuestion topic question_type difficulty = .error e) :
    InterviewPipeline.forward svc topic question_type difficulty n
      = (.error e, [Call.question topic question_type difficulty]) := by
  simp [InterviewPipeline.forward, QuestionGenerator.forward, h]

/-- C4 witness: a service whose question generation fails with a concrete
error. -/
theorem claim4_witness :
    InterviewPipeline.forward failQuestionSvc "trees" "coding" "easy" 3
      = (.error (.generationError "boom"), [Call.question "trees" "coding" "easy"]) :=
  claim4_pipeline_fail_fast failQuestionSvc "trees" "coding" "easy" 3
    (.generationError "boom") rfl

/-- C5: every successful `InterviewPipeline.forward` result carries the
caller difficulty string unchanged in `requested_difficulty`, while
`assessed_difficulty` is the own output of the assessor for the generated
question
(and hence may differ from the requested value). -/
theorem claim5_requested_vs_assessed (svc : CompletionService)
    (topic question_type difficulty : String) (n : Int) (r : PipelineResult)
    (h : (InterviewPipeline.forward svc topic question_type difficulty n).1
      = .ok r) :
    r.requested_difficulty = difficulty
    ∧ ∃ a : DifficultyOut, svc.assessDifficulty r.question topic = .ok a
        ∧ r.assessed_difficulty = a.assessed_difficulty := by
  simp only [InterviewPipeline.forward, QuestionGenerator.forward,
    FollowUpGenerator.forward, DifficultyAssessor.call] at h
  split at h
  · simp at h
  · rename_i q hq
    split at h
    · simp at h
    · rename_i f hf
      split at h
      · simp at h
      · rename_i a ha
        simp only [Except.ok.injEq] at h
        subst h
        exact ⟨rfl, a, ha, rfl⟩

/-- C5 witness: with `constSvc` the requested difficulty "easy" is preserved
while the assessed difficulty is the "hard" coming from the assessor. -/
theorem claim5_witness :
    ({ question := "Q", explanation := "E", requested_difficulty := "easy",
       assessed_difficulty := "hard", difficulty_reasoning := "R",
       followup_questions := "F" } : PipelineResult).requested_difficulty
        = "easy"
    ∧ ∃ a : DifficultyOut,
        constSvc.assessDifficulty
          ({ question := "Q", explanation := "E",
             requested_difficulty := "easy", assessed_difficulty := "hard",
             difficulty_reasoning := "R",
             followup_questions := "F" } : PipelineResult).question "trees"
          = .ok a
        ∧ ({ question := "Q", explanation := "E",
             requested_difficulty := "easy", assessed_difficulty := "hard",
             difficulty_reasoning := "R",
             followup_questions := "F" } : PipelineResult).assessed_difficulty
          = a.assessed_difficulty :=
  claim5_requested_vs_assessed constSvc "trees" "coding" "easy" 3 _ rfl

/-- C6: a successful `InterviewPipeline.forward` run issues exactly the three
stage calls in the fixed order question generation, follow-up generation,
difficulty assessment, passing the stage-1 question both as the
`original_question` of the follow-up generator and as the `question` of the
assessor, and merges
the five stage outputs plus the requested difficulty into the six-field
PipelineResult. -/
theorem claim6_stage_order_and_merge (svc : CompletionService)
    (topic question_type difficulty : String) (n : Int)
    (q : QuestionOut) (f : FollowUpOut) (a : DifficultyOut)
    (hq : svc.genQuestion topic question_type difficulty = .ok q)
    (hf : svc.genFollowUp q.question topic n = .ok f)
    (ha : svc.assessDifficulty q.question topic = .ok a) :
    InterviewPipeline.forward svc topic question_type difficulty n
      = (.ok { question := q.question
             , explanation := q.explanation
             , requested_difficulty := difficulty
             , assessed_difficulty := a.assessed_difficulty
             , difficulty_reasoning := a.reasoning
             , followup_questions := f.followup_questions },
         [Call.question topic question_type difficulty,
          Call.followUp q.question topic n,
          Call.assess q.question topic]) := by
  simp [InterviewPipeline.forward, QuestionGenerator.forward,
    FollowUpGenerator.forward, DifficultyAssessor.call, hq, hf, ha]

/-- C6 witness: concrete successful run through `constSvc`. -/
theorem claim6_witness :
    InterviewPipeline.forward constSvc "trees" "coding" "easy" 3
      = (.ok { question := "Q", explanation := "E",
               requested_difficulty := "easy", assessed_difficulty := "hard",
               difficulty_reasoning := "R", followup_questions := "F" },
         [Call.question "trees" "coding" "easy",
          Call.followUp "Q" "trees" 3,
          Call.assess "Q" "trees"]) :=
  claim6_stage_order_and_merge constSvc "trees" "coding" "easy" 3
    { question := "Q", explanation := "E" } { followup_questions := "F" }
    { assessed_difficulty := "hard", reasoning := "R" } rfl rfl rfl

/-- C7: `CompleteInterviewGenerator.forward` invokes the ML generator with
question style "theoretical" for question type "ml_theory" and "practical"
for "ml_practical"; in both cases `main_question` is the ML `question` output
and the full ML record is the `details` field. -/
theorem claim7_ml_dispatch (svc : CompletionService)
    (topic difficulty : String) (n : Int)
    (m m' : MLOut) (f f' : FollowUpOut)
    (hm : svc.genML topic difficulty "theoretical" = .ok m)
    (hf : svc.genFollowUp m.question topic n = .ok f)
    (hm' : svc.genML topic difficulty "practical" = .ok m')
    (hf' : svc.genFollowUp m'.question topic n = .ok f') :
    CompleteInterviewGenerator.forward svc topic "ml_theory" difficulty n
        = (.ok { question := m.question, details := Details.ml m,
                 difficulty := difficulty,
                 followup_questions := f.followup_questions },
           [Call.ml topic difficulty "theoretical",
            Call.followUp m.question topic n])
    ∧ CompleteInterviewGenerator.forward svc topic "ml_practical" difficulty n
        = (.ok { question := m'.question, details := Details.ml m',
                 difficulty := difficulty,
                 followup_questions := f'.followup_questions },
           [Call.ml topic difficulty "practical",
            Call.followUp m'.question topic n]) := by
  constructor
  · simp [CompleteInterviewGenerator.forward,
      CompleteInterviewGenerator.dispatch, MLQuestionGenerator.forward,
      FollowUpGenerator.forward, hm, hf]
  · simp [CompleteInterviewGenerator.forward,
      CompleteInterviewGenerator.dispatch, MLQuestionGenerator.forward,
      FollowUpGenerator.forward, hm', hf']

/-- C7 witness: concrete ML runs through `constSvc`. -/
theorem claim7_witness :
    CompleteInterviewGenerator.forward constSvc "CNN" "ml_theory" "medium" 3
        = (.ok { question := "MQ-theoretical"
               , details := Details.ml
                   { question := "MQ-theoretical", key_concepts := "K",
                     expected_depth := "DP" }
               , difficulty := "medium"
               , followup_questions := "F" },
           [Call.ml "CNN" "medium" "theoretical",
            Call.followUp "MQ-theoretical" "CNN" 3])
    ∧ CompleteInterviewGenerator.forward constSvc "CNN" "ml_practical" "medium" 3
        = (.ok { question := "MQ-practical"
               , details := Details.ml
                   { question := "MQ-practical", key_concepts := "K",
                     expected_depth := "DP" }
               , difficulty := "medium"
               , followup_questions := "F" },
           [Call.ml "CNN" "medium" "practical",
            Call.followUp "MQ-practical" "CNN" 3]) :=
  claim7_ml_dispatch constSvc "CNN" "medium" 3
    { question := "MQ-theoretical", key_concepts := "K", expected_depth := "DP" }
    { question := "MQ-practical", key_concepts := "K", expected_depth := "DP" }
    { followup_questions := "F" } { followup_questions := "F" }
    rfl rfl rfl rfl

/-- C8: with the completion service a fixed pure function, swapping stage 2
(follow-up generation) and stage 3 (difficulty assessment) of the pipeline
yields the same PipelineResult: the successful outcome of the reordered
pipeline always equals that of the original. -/
theorem claim8_stage_swap_equivalent (svc : CompletionService)
    (topic question_type difficulty : String) (n : Int) :
    (InterviewPipeline.forward svc topic question_type difficulty n).1.toOption
      = (InterviewPipeline.forwardSwapped svc topic question_type
          difficulty n).1.toOption := by
  simp only [InterviewPipeline.forward, InterviewPipeline.forwardSwapped,
    QuestionGenerator.forward, FollowUpGenerator.forward,
    DifficultyAssessor.call]
  cases hq : svc.genQuestion topic question_type difficulty with
  | error e => rfl
  | ok q =>
    cases hf : svc.genFollowUp q.question topic n with
    | error e =>
      cases ha : svc.assessDifficulty q.question topic with
      | error e2 => simp [Except.toOption, hf, ha]
      | ok a => simp [Except.toOption, hf, ha]
    | ok f =>
      cases ha : svc.assessDifficulty q.question topic with
      | error e2 => simp [Except.toOption, hf, ha]
      | ok a => simp [Except.toOption, hf, ha]

/-- C9: `num_followups` defaults to 3 in `FollowUpGenerator.forward`,
`InterviewPipeline.forward` and `CompleteInterviewGenerator.forward`, and any
caller-supplied value (zero and negative included) is passed through to the
follow-up schema unchanged, with no bound or validation. -/
theorem claim9_num_followups_default_and_passthrough (svc : CompletionService)
    (original_question topic question_type difficulty : String) (n : Int) :
    FollowUpGenerator.forward svc original_question topic
        = FollowUpGenerator.forward svc original_question topic 3
    ∧ InterviewPipeline.forward svc topic question_type difficulty
        = InterviewPipeline.forward svc topic question_type difficulty 3
    ∧ CompleteInterviewGenerator.forward svc topic question_type difficulty
        = CompleteInterviewGenerator.forward svc topic question_type difficulty 3
    ∧ (FollowUpGenerator.forward svc original_question topic n).2
        = [Call.followUp original_question topic n] :=
  ⟨rfl, rfl, rfl, rfl⟩

/-- C10: whatever branch was taken, a successful
`CompleteInterviewGenerator.forward` returns the caller difficulty string
unchanged in the `difficulty` field. -/
theorem claim10_difficulty_unchanged (svc : CompletionService)
    (topic question_type difficulty : String) (n : Int) (r : CompleteResult)
    (h : (CompleteInterviewGenerator.forward svc topic question_type
        difficulty n).1 = .ok r) :
    r.difficulty = difficulty := by
  simp only [CompleteInterviewGenerator.forward] at h
  split at h
  · simp at h
  · rename_i md hmd
    split at h
    · simp at h
    · rename_i f hf
      simp only [Except.ok.injEq] at h
      subst h
      rfl

/-- C10 witness: concrete coding run through `constSvc` with difficulty
"medium". -/
theorem claim10_witness :
    ({ question := "T\n\nD\n\nInput: I\nOutput: O\n\nConstraints: C\n\nExample:\nX"
     , details := Details.coding
         { question_title := "T", question_description := "D",
           input_format := "I", output_format := "O",
           constraints := "C", «example» := "X" }
     , difficulty := "medium"
     , followup_questions := "F" } : CompleteResult).difficulty = "medium" :=
  claim10_difficulty_unchanged constSvc "graphs" "coding" "medium" 3 _ rfl
